import Mathlib

/-!
Shallow embedding of the job-search core from `src/main.py`:
the `Vacancy` data model (construction, salary-only comparison, validation),
the `HhVacancyAPI.get_vacancies` client, and the `JsonVacancyStorage`
operations (`add_vacancies`, `get_vacancies`, `delete_vacancies`) over an
explicit backing-file state.
-/

namespace JobSearch

/-- The Python runtime values that flow through the program: `None`, booleans,
integers, floats (modelled as rationals: the program only type-checks,
compares and tests truthiness of floats, never does float arithmetic),
and strings. `bool` is a separate constructor because CPython's `type(x)`
distinguishes `bool` from `int`, which `Vacancy.validate` relies on. -/
inductive PyVal where
  | none : PyVal
  | bool (b : Bool) : PyVal
  | int (n : Int) : PyVal
  | float (q : ℚ) : PyVal
  | str (s : String) : PyVal
deriving DecidableEq

/-- Python truthiness: `None`, `False`, `0`, `0.0` and `""` are falsy. -/
def PyVal.truthy : PyVal → Bool
  | .none => false
  | .bool b => b
  | .int n => decide (n ≠ 0)
  | .float q => decide (q ≠ 0)
  | .str s => decide (s ≠ "")

/-- Python's short-circuit `x or y`: `x` when truthy, else `y`. -/
def pyOr (x y : PyVal) : PyVal := if x.truthy then x else y

/-- Numeric view used by Python `==`/`<`/`>`: ints, floats and bools
compare numerically (`True == 1`). -/
def PyVal.toNum : PyVal → Option ℚ
  | .bool b => some (if b then 1 else 0)
  | .int n => some ((n : ℚ))
  | .float q => some q
  | _ => Option.none

/-- Python `==` on the values above: cross-type numeric equality between
ints, floats and bools; structural equality otherwise (values of
unrelated types compare unequal, never raise). -/
def pyEq (x y : PyVal) : Bool :=
  match x.toNum, y.toNum with
  | some a, some b => decide (a = b)
  | _, _ => decide (x = y)

/-- Python `<`: numeric comparison between numbers, lexicographic between
strings, `TypeError` otherwise. -/
def pyLt (x y : PyVal) : Except String Bool :=
  match x.toNum, y.toNum with
  | some a, some b => .ok (decide (a < b))
  | _, _ =>
    match x, y with
    | .str s, .str t => .ok (decide (s < t))
    | _, _ => .error "TypeError"

/-- Python `>`: mirror of `pyLt`. -/
def pyGt (x y : PyVal) : Except String Bool :=
  match x.toNum, y.toNum with
  | some a, some b => .ok (decide (b < a))
  | _, _ =>
    match x, y with
    | .str s, .str t => .ok (decide (t < s))
    | _, _ => .error "TypeError"

/-- `type(x) in [int, float]`, the check `Vacancy.validate` applies to
`salary` (note `type(True)` is `bool`, so a bool fails it). -/
def PyVal.isNumType : PyVal → Bool
  | .int _ => true
  | .float _ => true
  | _ => false

/-- `isinstance(x, str)` for the modelled values. -/
def PyVal.isStr : PyVal → Bool
  | .str _ => true
  | _ => false

/-- The `Vacancy` object: the four instance attributes set by `__init__`.
Attribute values stay `PyVal` because Python never enforces the annotations. -/
structure Vacancy where
  title : PyVal
  url : PyVal
  salary : PyVal
  description : PyVal
deriving DecidableEq

/-- `Vacancy.__init__`: stores `title`, `url`, `description` as given and
`salary or 0` (so `None`, `0.0` and `False` all become the int `0`,
while any truthy value — negative numbers included — is kept). -/
def Vacancy.init (title url salary description : PyVal) : Vacancy :=
  { title := title, url := url, salary := pyOr salary (.int 0),
    description := description }

/-- `Vacancy.__eq__`: compares `salary` only. -/
def Vacancy.eq (a b : Vacancy) : Bool := pyEq a.salary b.salary

/-- `Vacancy.__lt__`: compares `salary` only. -/
def Vacancy.lt (a b : Vacancy) : Except String Bool := pyLt a.salary b.salary

/-- `Vacancy.__gt__`: compares `salary` only. -/
def Vacancy.gt (a b : Vacancy) : Except String Bool := pyGt a.salary b.salary

/-- `Vacancy.validate`: raises `ValueError` (the spec's ValidationError)
naming the first field, in source order, whose type check fails. -/
def Vacancy.validate (v : Vacancy) : Except String Unit :=
  if ¬ v.salary.isNumType then .error "Salary must be a number"
  else if ¬ v.title.isStr then .error "Title must be a string"
  else if ¬ v.url.isStr then .error "URL must be a string"
  else if ¬ v.description.isStr then .error "Description must be a string"
  else .ok ()

/-- What `HhVacancyAPI.get_vacancies` observes of the HTTP response:
its status code and the sequence under the body's `"items"` field. -/
structure HttpResponse where
  status_code : Nat
  items : List PyVal

namespace HhVacancyAPI

/-- `HhVacancyAPI.get_vacancies`, as a function of the response the single
request produced: returns `response.json()["items"]` when
`response.status_code == 200`, otherwise raises
`Exception(f"Error getting vacancies: \x7bresponse.status_code\x7d")`. -/
def get_vacancies (response : HttpResponse) : Except String (List PyVal) :=
  if response.status_code = 200 then .ok response.items
  else .error ("Error getting vacancies: " ++ toString response.status_code)

end HhVacancyAPI

/-- One record of the backing JSON file: `json.dump` of `v.__dict__`, a
mapping with exactly the keys `title`, `url`, `salary`, `description`. -/
structure VacancyRecord where
  title : PyVal
  url : PyVal
  salary : PyVal
  description : PyVal
deriving DecidableEq

/-- `v.__dict__` of a `Vacancy`, as serialized by `add_vacancies`. -/
def Vacancy.toDict (v : Vacancy) : VacancyRecord :=
  ⟨v.title, v.url, v.salary, v.description⟩

/-- Python subscript `v[key]` on a stored record: `some` the value for the
four present keys, `Option.none` (a `KeyError` at the call site) otherwise. -/
def VacancyRecord.subscript (r : VacancyRecord) (key : String) : Option PyVal :=
  if key = "title" then some r.title
  else if key = "url" then some r.url
  else if key = "salary" then some r.salary
  else if key = "description" then some r.description
  else Option.none

/-- `Vacancy(**v)`: reconstructs a `Vacancy` from a stored record through
`Vacancy.__init__` (so the `salary or 0` coercion runs again). -/
def VacancyRecord.toVacancy (r : VacancyRecord) : Vacancy :=
  Vacancy.init r.title r.url r.salary r.description

/-- The keys present in every stored record. -/
def validKey (key : String) : Bool :=
  key = "title" || key = "url" || key = "salary" || key = "description"

/-- The backing file named by `JsonVacancyStorage.file_name`: absent,
present but not parseable by `json.load`, or a parsed list of records. -/
inductive FileState where
  | missing
  | unparseable
  | records (rs : List VacancyRecord)
deriving DecidableEq

/-- The errors the storage operations raise: the unreadable-medium errors
(`FileNotFoundError` from `open`, `json.JSONDecodeError` from `json.load` —
the spec's StorageUnavailableError taxonomy) and `KeyError` from `v[key]`. -/
inductive StorageError where
  | storageUnavailable (reason : String)
  | keyError (key : String)
deriving DecidableEq

namespace JsonVacancyStorage

/-- `open(file_name, "r")` followed by `json.load`: the records, or the
error that the read raises. -/
def readFile : FileState → Except StorageError (List VacancyRecord)
  | .missing => .error (.storageUnavailable "file not found")
  | .unparseable => .error (.storageUnavailable "malformed stored content")
  | .records rs => .ok rs

/-- `add_vacancies`: `open(file_name, "w")` truncates whatever was there and
`json.dump` writes `[v.__dict__ for v in vacancies]` — a full replacement
of the backing collection, whatever the previous file state was. -/
def add_vacancies (vacancies : List Vacancy) (_fs : FileState) : FileState :=
  .records (vacancies.map Vacancy.toDict)

/-- The filter inside `get_vacancies`: keeps records with `v[key] == value`,
raising `KeyError` the first time `key` is absent from a record. -/
def selectMatching (key : String) (value : PyVal) :
    List VacancyRecord → Except StorageError (List VacancyRecord)
  | [] => .ok []
  | r :: rs =>
    match r.subscript key with
    | Option.none => .error (.keyError key)
    | some x =>
      match selectMatching key value rs with
      | .error e => .error e
      | .ok rest => .ok (if pyEq x value then r :: rest else rest)

/-- The filter inside `delete_vacancies`: keeps records with
`v[key] != value`, raising `KeyError` when `key` is absent. -/
def selectRemaining (key : String) (value : PyVal) :
    List VacancyRecord → Except StorageError (List VacancyRecord)
  | [] => .ok []
  | r :: rs =>
    match r.subscript key with
    | Option.none => .error (.keyError key)
    | some x =>
      match selectRemaining key value rs with
      | .error e => .error e
      | .ok rest => .ok (if pyEq x value then rest else r :: rest)

/-- `get_vacancies(key, value)`: loads the file, keeps records whose `key`
field `== value`, and rebuilds each kept record with `Vacancy(**v)`. -/
def get_vacancies (key : String) (value : PyVal) (fs : FileState) :
    Except StorageError (List Vacancy) :=
  match readFile fs with
  | .error e => .error e
  | .ok rs =>
    match selectMatching key value rs with
    | .error e => .error e
    | .ok ms => .ok (ms.map VacancyRecord.toVacancy)

/-- `delete_vacancies(key, value)`: loads the file, drops records whose
`key` field `== value`, and writes the remaining records back. -/
def delete_vacancies (key : String) (value : PyVal) (fs : FileState) :
    Except StorageError FileState :=
  match readFile fs with
  | .error e => .error e
  | .ok rs =>
    match selectRemaining key value rs with
    | .error e => .error e
    | .ok keep => .ok (.records keep)

end JsonVacancyStorage

/-- Field projection for statements: the record's value at a valid key
(junk `PyVal.none` at an invalid one). -/
def Vacancy.field (v : Vacancy) (key : String) : PyVal :=
  (v.toDict.subscript key).getD PyVal.none

/-- A `Vacancy` is well-formed when it could have come out of
`Vacancy.__init__`: re-running the constructor on its fields is a no-op. -/
def Vacancy.wf (v : Vacancy) : Prop :=
  Vacancy.init v.title v.url v.salary v.description = v

/-! ### Helper lemmas -/

theorem pyEq_refl (x : PyVal) : pyEq x x = true := by
  unfold pyEq
  cases h : x.toNum <;> simp

theorem pyOr_int (m : Int) : pyOr (.int m) (.int 0) = .int m := by
  by_cases h : m = 0 <;> simp [pyOr, PyVal.truthy, h]

theorem init_wf (t u s d : PyVal) : (Vacancy.init t u s d).wf := by
  unfold Vacancy.wf Vacancy.init
  by_cases h : s.truthy = true
  · simp [pyOr, h]
  · simp only [Bool.not_eq_true] at h
    simp [pyOr, h]

theorem toVacancy_toDict (v : Vacancy) (h : v.wf) : v.toDict.toVacancy = v := h

theorem salary_numType (t u d s : PyVal)
    (h : s.isNumType = true ∨ s = PyVal.none) :
    (Vacancy.init t u s d).salary.isNumType = true := by
  cases s with
  | none => rfl
  | int n =>
    by_cases h0 : n = 0 <;> simp [Vacancy.init, pyOr, PyVal.truthy, h0, PyVal.isNumType]
  | float q =>
    by_cases h0 : q = 0 <;> simp [Vacancy.init, pyOr, PyVal.truthy, h0, PyVal.isNumType]
  | bool b => rcases h with h | h <;> simp [PyVal.isNumType] at h
  | str s => rcases h with h | h <;> simp [PyVal.isNumType] at h

theorem salary_pyEq_input (t u d s : PyVal) (h : s.isNumType = true) :
    pyEq (Vacancy.init t u s d).salary s = true := by
  cases s with
  | int n => simp [Vacancy.init, pyOr_int, pyEq, PyVal.toNum]
  | float q =>
    by_cases h0 : q = 0 <;>
      simp [Vacancy.init, pyOr, PyVal.truthy, h0, pyEq, PyVal.toNum]
  | none => simp [PyVal.isNumType] at h
  | bool b => simp [PyVal.isNumType] at h
  | str s => simp [PyVal.isNumType] at h

theorem subscript_some_of_validKey (key : String) (hk : validKey key = true)
    (r : VacancyRecord) :
    r.subscript key = some ((r.subscript key).getD PyVal.none) := by
  unfold validKey at hk
  simp only [Bool.or_eq_true, decide_eq_true_eq] at hk
  rcases hk with ((h | h) | h) | h <;> subst h <;> rfl

theorem subscript_none_of_invalidKey (key : String) (hk : validKey key = false)
    (r : VacancyRecord) :
    r.subscript key = Option.none := by
  unfold validKey at hk
  simp only [Bool.or_eq_false_iff, decide_eq_false_iff_not] at hk
  unfold VacancyRecord.subscript
  simp [hk.1.1.1, hk.1.1.2, hk.1.2, hk.2]

theorem selectMatching_eq_filter (key : String) (value : PyVal)
    (hk : validKey key = true) (rs : List VacancyRecord) :
    JsonVacancyStorage.selectMatching key value rs
      = .ok (rs.filter fun r => pyEq ((r.subscript key).getD PyVal.none) value) := by
  induction rs with
  | nil => rfl
  | cons r rs ih =>
    cases h : r.subscript key with
    | none =>
      have hs := subscript_some_of_validKey key hk r
      rw [h] at hs
      exact absurd hs (by simp)
    | some x =>
      simp only [JsonVacancyStorage.selectMatching, h, ih, List.filter_cons,
        Option.getD_some]

theorem selectRemaining_eq_filter (key : String) (value : PyVal)
    (hk : validKey key = true) (rs : List VacancyRecord) :
    JsonVacancyStorage.selectRemaining key value rs
      = .ok (rs.filter fun r => ! pyEq ((r.subscript key).getD PyVal.none) value) := by
  induction rs with
  | nil => rfl
  | cons r rs ih =>
    cases h : r.subscript key with
    | none =>
      have hs := subscript_some_of_validKey key hk r
      rw [h] at hs
      exact absurd hs (by simp)
    | some x =>
      simp only [JsonVacancyStorage.selectRemaining, h, ih, List.filter_cons,
        Option.getD_some]
      by_cases hx : pyEq x value = true
      · simp [hx]
      · simp only [Bool.not_eq_true] at hx
        simp [hx]

theorem selectMatching_keyError (key : String) (value : PyVal)
    (hk : validKey key = false) (r : VacancyRecord) (rs : List VacancyRecord) :
    JsonVacancyStorage.selectMatching key value (r :: rs)
      = .error (.keyError key) := by
  simp [JsonVacancyStorage.selectMatching, subscript_none_of_invalidKey key hk r]

theorem selectRemaining_keyError (key : String) (value : PyVal)
    (hk : validKey key = false) (r : VacancyRecord) (rs : List VacancyRecord) :
    JsonVacancyStorage.selectRemaining key value (r :: rs)
      = .error (.keyError key) := by
  simp [JsonVacancyStorage.selectRemaining, subscript_none_of_invalidKey key hk r]

theorem filter_not_self {α : Type} (p : α → Bool) (l : List α) :
    (l.filter fun a => ! p a).filter p = [] := by
  induction l with
  | nil => rfl
  | cons a l ih => by_cases h : p a = true <;> simp [List.filter_cons, h, ih]

/-! ### Claim theorems -/

/-- C1: for every storage state and vacancy sequences A and B, calling
`add_vacancies` with A and then with B leaves the backing collection holding
exactly B's records (replace, not append), so any subsequent `get_vacancies`
sees only records of B. -/
theorem add_vacancies_replace (fs : FileState) (A B : List Vacancy) :
    JsonVacancyStorage.add_vacancies B (JsonVacancyStorage.add_vacancies A fs)
      = FileState.records (B.map Vacancy.toDict) ∧
    ∀ (key : String) (value : PyVal),
      JsonVacancyStorage.get_vacancies key value
          (JsonVacancyStorage.add_vacancies B (JsonVacancyStorage.add_vacancies A fs))
        = JsonVacancyStorage.get_vacancies key value
            (JsonVacancyStorage.add_vacancies B fs) :=
  ⟨rfl, fun _ _ => rfl⟩

/-- C4: for every salary input that is a number or `None`, the constructed
`Vacancy` stores a salary `==`-equal to the input when it is a number, the
int `0` when it is `None`, and the stored salary is always a number
(never absent). -/
theorem init_salary_coercion (t u d s : PyVal)
    (h : s.isNumType = true ∨ s = PyVal.none) :
    (s.isNumType = true → pyEq (Vacancy.init t u s d).salary s = true) ∧
    (s = PyVal.none → (Vacancy.init t u s d).salary = PyVal.int 0) ∧
    (Vacancy.init t u s d).salary.isNumType = true :=
  ⟨fun hn => salary_pyEq_input t u d s hn,
   fun hn => by subst hn; rfl,
   salary_numType t u d s h⟩

/-- Witness for C4 at the concrete numeric input 5. -/
theorem init_salary_coercion_apply :
    ((PyVal.int 5).isNumType = true ∨ PyVal.int 5 = PyVal.none) ∧
    (pyEq (Vacancy.init (.str "t") (.str "u") (.int 5) (.str "d")).salary
        (PyVal.int 5) = true ∧
     (Vacancy.init (.str "t") (.str "u") (.int 5) (.str "d")).salary.isNumType
        = true) :=
  ⟨Or.inl rfl,
   (init_salary_coercion (.str "t") (.str "u") (.str "d") (.int 5)
      (Or.inl rfl)).1 rfl,
   (init_salary_coercion (.str "t") (.str "u") (.str "d") (.int 5)
      (Or.inl rfl)).2.2⟩

/-- C5: `__eq__`, `__lt__` and `__gt__` compare by `salary` alone — the
title, url and description fields are ignored — and on integer salaries
they agree with integer equality and order. -/
theorem vacancy_compare_salary_only :
    (∀ a b : Vacancy, Vacancy.eq a b = pyEq a.salary b.salary ∧
      Vacancy.lt a b = pyLt a.salary b.salary ∧
      Vacancy.gt a b = pyGt a.salary b.salary) ∧
    (∀ t₁ u₁ d₁ t₂ u₂ d₂ : PyVal, ∀ m n : Int,
      (Vacancy.eq (Vacancy.init t₁ u₁ (.int m) d₁)
          (Vacancy.init t₂ u₂ (.int n) d₂) = true ↔ m = n) ∧
      (Vacancy.lt (Vacancy.init t₁ u₁ (.int m) d₁)
          (Vacancy.init t₂ u₂ (.int n) d₂) = .ok true ↔ m < n) ∧
      (Vacancy.gt (Vacancy.init t₁ u₁ (.int m) d₁)
          (Vacancy.init t₂ u₂ (.int n) d₂) = .ok true ↔ n < m)) := by
  refine ⟨fun a b => ⟨rfl, rfl, rfl⟩, fun t₁ u₁ d₁ t₂ u₂ d₂ m n => ?_⟩
  simp [Vacancy.eq, Vacancy.lt, Vacancy.gt, Vacancy.init, pyOr_int, pyEq,
    pyLt, pyGt, PyVal.toNum]

/-- C6: `validate` succeeds exactly when `salary` is numeric and `title`,
`url`, `description` are strings, and a failure names a field that indeed
violates its type contract. -/
theorem validate_type_contract (v : Vacancy) :
    (v.validate = .ok () ↔
      (v.salary.isNumType = true ∧ v.title.isStr = true ∧
       v.url.isStr = true ∧ v.description.isStr = true)) ∧
    ∀ e : String, v.validate = .error e →
      (e = "Salary must be a number" ∧ v.salary.isNumType = false) ∨
      (e = "Title must be a string" ∧ v.title.isStr = false) ∨
      (e = "URL must be a string" ∧ v.url.isStr = false) ∨
      (e = "Description must be a string" ∧ v.description.isStr = false) := by
  unfold Vacancy.validate
  constructor
  · split_ifs with h1 h2 h3 h4 <;> simp_all
  · intro e
    split_ifs with h1 h2 h3 h4 <;> intro he <;> simp_all

/-- C8 counterexample: constructing a Vacancy with salary -5 stores the
negative value -5 — the salary is not non-negative after construction. -/
theorem init_salary_negative_cex :
    (Vacancy.init (.str "t") (.str "u") (.int (-5)) (.str "d")).salary
      = PyVal.int (-5) ∧ (-5 : Int) < 0 :=
  ⟨rfl, by decide⟩

/-- C8 amended: after construction the salary is always a numeric value and
never absent (`None` is coerced to the int 0), but it is not guaranteed
non-negative — any nonzero integer input, negative included, is stored
unchanged. -/
theorem init_salary_always_numeric (t u d s : PyVal)
    (h : s.isNumType = true ∨ s = PyVal.none) :
    (Vacancy.init t u s d).salary.isNumType = true ∧
    (s = PyVal.none → (Vacancy.init t u s d).salary = PyVal.int 0) ∧
    ∀ n : Int, n ≠ 0 →
      (Vacancy.init t u (PyVal.int n) d).salary = PyVal.int n :=
  ⟨salary_numType t u d s h,
   fun hn => by subst hn; rfl,
   fun n hn => by simp [Vacancy.init, pyOr, PyVal.truthy, hn]⟩

/-- C2 counterexample: two stored records share the description "d"; reading
back with the first record's description does not return exactly that one
record — both come back. -/
theorem roundtrip_exact_cex :
    JsonVacancyStorage.get_vacancies "description" (.str "d")
        (JsonVacancyStorage.add_vacancies
          [Vacancy.init (.str "A") (.str "u1") (.int 1) (.str "d"),
           Vacancy.init (.str "B") (.str "u2") (.int 2) (.str "d")]
          FileState.missing)
      = .ok [Vacancy.init (.str "A") (.str "u1") (.int 1) (.str "d"),
             Vacancy.init (.str "B") (.str "u2") (.int 2) (.str "d")] ∧
    [Vacancy.init (.str "A") (.str "u1") (.int 1) (.str "d"),
     Vacancy.init (.str "B") (.str "u2") (.int 2) (.str "d")]
      ≠ [Vacancy.init (.str "A") (.str "u1") (.int 1) (.str "d")] :=
  ⟨rfl, by decide⟩

/-- C2 amended: after storing a collection of constructed vacancies, reading
back with a record's own field value returns exactly the stored records whose
field `==`-equals it — content-equal, all four fields preserved — and that
sequence contains the record itself (it is exactly the record only when no
other record shares the value). -/
theorem get_vacancies_roundtrip (vs : List Vacancy) (key : String) (r : Vacancy)
    (fs : FileState) (hwf : ∀ v ∈ vs, v.wf) (hk : validKey key = true)
    (hr : r ∈ vs) :
    JsonVacancyStorage.get_vacancies key (r.field key)
        (JsonVacancyStorage.add_vacancies vs fs)
      = .ok (vs.filter fun v => pyEq (v.field key) (r.field key)) ∧
    r ∈ vs.filter fun v => pyEq (v.field key) (r.field key) := by
  refine ⟨?_, List.mem_filter.mpr ⟨hr, pyEq_refl _⟩⟩
  simp only [JsonVacancyStorage.get_vacancies, JsonVacancyStorage.add_vacancies,
    JsonVacancyStorage.readFile, selectMatching_eq_filter key (r.field key) hk]
  rw [List.filter_map, List.map_map]
  have hmap : ∀ v ∈ vs.filter
      ((fun rec => pyEq ((rec.subscript key).getD PyVal.none) (r.field key))
        ∘ Vacancy.toDict),
      (VacancyRecord.toVacancy ∘ Vacancy.toDict) v = id v :=
    fun v hv => toVacancy_toDict v (hwf v (List.mem_filter.mp hv).1)
  rw [List.map_congr_left hmap, List.map_id]
  rfl

/-- Witness for C2's amended theorem on a one-record collection. -/
theorem get_vacancies_roundtrip_apply :
    JsonVacancyStorage.get_vacancies "title"
        (Vacancy.field (Vacancy.init (.str "A") (.str "u") (.int 1) (.str "d"))
          "title")
        (JsonVacancyStorage.add_vacancies
          [Vacancy.init (.str "A") (.str "u") (.int 1) (.str "d")]
          FileState.missing)
      = .ok ([Vacancy.init (.str "A") (.str "u") (.int 1) (.str "d")].filter
          fun v => pyEq (v.field "title")
            (Vacancy.field (Vacancy.init (.str "A") (.str "u") (.int 1)
              (.str "d")) "title")) ∧
    Vacancy.init (.str "A") (.str "u") (.int 1) (.str "d")
      ∈ [Vacancy.init (.str "A") (.str "u") (.int 1) (.str "d")].filter
          fun v => pyEq (v.field "title")
            (Vacancy.field (Vacancy.init (.str "A") (.str "u") (.int 1)
              (.str "d")) "title") :=
  get_vacancies_roundtrip
    [Vacancy.init (.str "A") (.str "u") (.int 1) (.str "d")] "title"
    (Vacancy.init (.str "A") (.str "u") (.int 1) (.str "d")) FileState.missing
    (fun v hv => by
      rw [List.mem_singleton] at hv
      subst hv
      exact init_wf _ _ _ _)
    rfl (List.mem_singleton.mpr rfl)

/-- C3: deleting by key/value keeps exactly the records whose field does not
`==`-equal the value, unchanged and in their original order, and a subsequent
read with the same key/value returns the empty sequence. -/
theorem delete_vacancies_exact (key : String) (value : PyVal)
    (rs : List VacancyRecord) (hk : validKey key = true) :
    JsonVacancyStorage.delete_vacancies key value (.records rs)
      = .ok (.records (rs.filter fun r =>
          ! pyEq ((r.subscript key).getD PyVal.none) value)) ∧
    (rs.filter fun r =>
      ! pyEq ((r.subscript key).getD PyVal.none) value).Sublist rs ∧
    (∀ r : VacancyRecord,
      r ∈ (rs.filter fun r =>
          ! pyEq ((r.subscript key).getD PyVal.none) value) ↔
        r ∈ rs ∧ pyEq ((r.subscript key).getD PyVal.none) value = false) ∧
    JsonVacancyStorage.get_vacancies key value
        (.records (rs.filter fun r =>
          ! pyEq ((r.subscript key).getD PyVal.none) value))
      = .ok [] := by
  refine ⟨?_, List.filter_sublist rs, fun r => ?_, ?_⟩
  · simp only [JsonVacancyStorage.delete_vacancies, JsonVacancyStorage.readFile,
      selectRemaining_eq_filter key value hk]
  · simp [List.mem_filter]
  · simp only [JsonVacancyStorage.get_vacancies, JsonVacancyStorage.readFile,
      selectMatching_eq_filter key value hk, filter_not_self]
    rfl

/-- Witness for C3: deleting salary 1 from a two-record store keeps only the
other record, and re-reading salary 1 finds nothing. -/
theorem delete_vacancies_exact_apply :
    JsonVacancyStorage.delete_vacancies "salary" (.int 1)
        (.records [⟨.str "t", .str "u", .int 1, .str "d"⟩,
                   ⟨.str "t2", .str "u2", .int 2, .str "d2"⟩])
      = .ok (.records [⟨.str "t2", .str "u2", .int 2, .str "d2"⟩]) ∧
    JsonVacancyStorage.get_vacancies "salary" (.int 1)
        (.records [⟨.str "t2", .str "u2", .int 2, .str "d2"⟩]) = .ok [] := by
  have h := delete_vacancies_exact "salary" (.int 1)
    [⟨.str "t", .str "u", .int 1, .str "d"⟩,
     ⟨.str "t2", .str "u2", .int 2, .str "d2"⟩] rfl
  exact ⟨h.1, h.2.2.2⟩

/-- C7 counterexample: status 201 is an HTTP success (2xx), yet the client
raises instead of returning the response's items. -/
theorem api_success_201_cex :
    200 ≤ 201 ∧ 201 < 300 ∧
    HhVacancyAPI.get_vacancies ⟨201, [PyVal.str "x"]⟩
      = .error "Error getting vacancies: 201" :=
  ⟨by decide, by decide, rfl⟩

/-- C7 amended: the client returns the response's items exactly when the
status code is 200; any other status — other 2xx codes included — raises an
error carrying the status code. -/
theorem api_items_iff_200 (response : HttpResponse) :
    (response.status_code = 200 →
      HhVacancyAPI.get_vacancies response = .ok response.items) ∧
    (response.status_code ≠ 200 →
      HhVacancyAPI.get_vacancies response
        = .error ("Error getting vacancies: "
            ++ toString response.status_code)) := by
  constructor <;> intro h <;> simp [HhVacancyAPI.get_vacancies, h]

/-- C9: every read path fails with the unavailable-storage error when the
backing file is missing or unparseable, and a read over a parsed store with
no matching record returns the empty sequence, not an error. -/
theorem storage_unavailable_errors (key : String) (value : PyVal)
    (rs : List VacancyRecord) (hk : validKey key = true)
    (hnm : ∀ r ∈ rs, pyEq ((r.subscript key).getD PyVal.none) value = false) :
    JsonVacancyStorage.get_vacancies key value .missing
      = .error (.storageUnavailable "file not found") ∧
    JsonVacancyStorage.get_vacancies key value .unparseable
      = .error (.storageUnavailable "malformed stored content") ∧
    JsonVacancyStorage.delete_vacancies key value .missing
      = .error (.storageUnavailable "file not found") ∧
    JsonVacancyStorage.delete_vacancies key value .unparseable
      = .error (.storageUnavailable "malformed stored content") ∧
    JsonVacancyStorage.get_vacancies key value (.records rs) = .ok [] := by
  refine ⟨rfl, rfl, rfl, rfl, ?_⟩
  simp only [JsonVacancyStorage.get_vacancies, JsonVacancyStorage.readFile,
    selectMatching_eq_filter key value hk]
  have hempty : rs.filter
      (fun r => pyEq ((r.subscript key).getD PyVal.none) value) = [] :=
    List.filter_eq_nil_iff.mpr (fun r hr => by simp [hnm r hr])
  rw [hempty]
  rfl

/-- Witness for C9 on a store whose single record does not match. -/
theorem storage_unavailable_errors_apply :
    JsonVacancyStorage.get_vacancies "title" (.str "x") .missing
      = .error (.storageUnavailable "file not found") ∧
    JsonVacancyStorage.get_vacancies "title" (.str "x") .unparseable
      = .error (.storageUnavailable "malformed stored content") ∧
    JsonVacancyStorage.delete_vacancies "title" (.str "x") .missing
      = .error (.storageUnavailable "file not found") ∧
    JsonVacancyStorage.delete_vacancies "title" (.str "x") .unparseable
      = .error (.storageUnavailable "malformed stored content") ∧
    JsonVacancyStorage.get_vacancies "title" (.str "x")
        (.records [⟨.str "y", .str "u", .int 1, .str "d"⟩]) = .ok [] :=
  storage_unavailable_errors "title" (.str "x")
    [⟨.str "y", .str "u", .int 1, .str "d"⟩] rfl
    (fun r hr => by
      rw [List.mem_singleton] at hr
      subst hr
      decide)

/-- C10: on a non-empty store, a key absent from the records (any name other
than the four attributes) makes both `get_vacancies` and `delete_vacancies`
raise the missing-key lookup error instead of treating records as
non-matches or returning an empty sequence. -/
theorem missing_key_error (key : String) (value : PyVal)
    (r : VacancyRecord) (rs : List VacancyRecord) (hk : validKey key = false) :
    JsonVacancyStorage.get_vacancies key value (.records (r :: rs))
      = .error (.keyError key) ∧
    JsonVacancyStorage.delete_vacancies key value (.records (r :: rs))
      = .error (.keyError key) := by
  constructor
  · simp only [JsonVacancyStorage.get_vacancies, JsonVacancyStorage.readFile,
      selectMatching_keyError key value hk r rs]
  · simp only [JsonVacancyStorage.delete_vacancies, JsonVacancyStorage.readFile,
      selectRemaining_keyError key value hk r rs]

/-- Witness for C10 at the absent key "company". -/
theorem missing_key_error_apply :
    JsonVacancyStorage.get_vacancies "company" (.str "x")
        (.records [⟨.str "t", .str "u", .int 1, .str "d"⟩])
      = .error (.keyError "company") ∧
    JsonVacancyStorage.delete_vacancies "company" (.str "x")
        (.records [⟨.str "t", .str "u", .int 1, .str "d"⟩])
      = .error (.keyError "company") :=
  missing_key_error "company" (.str "x")
    ⟨.str "t", .str "u", .int 1, .str "d"⟩ [] rfl

/-- Witness for C8's amended theorem at the negative input -3. -/
theorem init_salary_always_numeric_apply :
    ((PyVal.int (-3)).isNumType = true ∨ PyVal.int (-3) = PyVal.none) ∧
    ((Vacancy.init (.str "t") (.str "u") (.int (-3)) (.str "d")).salary.isNumType
        = true ∧
     (Vacancy.init (.str "t") (.str "u") (.int (-3)) (.str "d")).salary
        = PyVal.int (-3)) :=
  ⟨Or.inl rfl,
   (init_salary_always_numeric (.str "t") (.str "u") (.str "d") (.int (-3))
      (Or.inl rfl)).1,
   (init_salary_always_numeric (.str "t") (.str "u") (.str "d") (.int (-3))
      (Or.inl rfl)).2.2 (-3) (by decide)⟩

end JobSearch
